import Mathlib

/-!
Verification development for the nginx log watcher (src/watcher.py).

The watcher tails an access log, parses each line with a fixed regular
expression, keeps a sliding window of upstream status codes, detects pool
failovers, and dispatches rate-limited alerts to a Slack webhook (or the
console when no webhook is configured).

The definitions below are a shallow embedding of the Python source:
pure functions become Lean functions, the module-level mutable state
becomes an explicit state record threaded through a step function, float
timestamps and rates become exact rationals, and the outcome of the one
fallible external call (requests.post) is an explicit input.

One scoping defect of the source is modelled explicitly: monitor_logs
assigns last_pool without declaring it global, so the recovery
condition at line 185 reads an unbound local and raises
UnboundLocalError; see unboundLocalMsg and recoveryStageE below.
-/

/-- Alert categories used by the watcher (the keys of last_alert_time,
watcher.py line 29). -/
inductive AlertType where
  | failover
  | error_rate
  | recovery
deriving DecidableEq

/-- Observable outcome of one send_slack_alert call: which branch of the
function produced the return value (watcher.py lines 41-82). -/
inductive SendEffect where
  | consoleAlert
  | maintenanceSuppressed
  | cooldownSkipped
  | slackSent
  | slackError
deriving DecidableEq

/-- Outcome of the external requests.post call: either an HTTP response
with a status code and body text, or a raised exception (network error). -/
inductive PostResult where
  | response (code : Nat) (text : String)
  | exception (msg : String)
deriving DecidableEq

/-- Record extracted from one matching log line (parse_log_line,
watcher.py lines 84-95). -/
structure LogRecord where
  pool : String
  release : String
  upstreamStatus : Nat
  upstreamAddr : String
deriving DecidableEq

/-- Pool tracking state: the globals current_pool and last_pool
(watcher.py lines 26-27). -/
structure PoolState where
  currentPool : String
  lastPool : String
deriving DecidableEq

/-- Return value of detect_failover together with the updated globals
(watcher.py lines 105-115). -/
structure FailoverResult where
  detected : Bool
  oldPool : Option String
  newPool : Option String
  state : PoolState
deriving DecidableEq

/-- The last_alert_time dictionary (watcher.py line 29): last-fired
timestamp per alert category, all initialized to 0. -/
structure AlertState where
  failoverAt : ℚ
  errorRateAt : ℚ
  recoveryAt : ℚ
deriving DecidableEq

/-- Lookup last_alert_time.get(alert_type, 0); every category is present
from initialization, so the lookup is total. -/
def AlertState.get (a : AlertState) : AlertType → ℚ
  | AlertType.failover => a.failoverAt
  | AlertType.error_rate => a.errorRateAt
  | AlertType.recovery => a.recoveryAt

/-- Assignment last_alert_time[alert_type] = t (watcher.py line 74). -/
def AlertState.set (a : AlertState) (ty : AlertType) (t : ℚ) : AlertState :=
  match ty with
  | AlertType.failover => { a with failoverAt := t }
  | AlertType.error_rate => { a with errorRateAt := t }
  | AlertType.recovery => { a with recoveryAt := t }

/-- The initial last_alert_time dictionary (watcher.py line 29). -/
def initAlertState : AlertState := ⟨0, 0, 0⟩

/-- Environment-derived configuration (watcher.py lines 17-23); immutable
after startup. LOG_FILE is irrelevant to the modelled behavior. -/
structure Config where
  slackWebhookUrl : String
  activePool : String
  errorRateThreshold : ℚ
  windowSize : Nat
  alertCooldownSec : Nat
  maintenanceMode : Bool

/-- All module-level mutable state of the watcher: current_pool,
last_pool, request_window and last_alert_time (watcher.py lines 26-29). -/
structure WatcherState where
  currentPool : String
  lastPool : String
  requestWindow : List Nat
  alert : AlertState
deriving DecidableEq

/-- Initial state of the watcher process (watcher.py lines 26-29):
current_pool and last_pool start at ACTIVE_POOL, the window is empty and
no alert has fired. -/
def initWatcherState (cfg : Config) : WatcherState :=
  ⟨cfg.activePool, cfg.activePool, [], initAlertState⟩

/-- One effect entry: which category was dispatched and through which
branch of send_slack_alert. -/
abbrev Eff := AlertType × SendEffect

/- ### Line parser (LOG_PATTERN and parse_log_line, watcher.py 32-37, 84-95) -/

/-- Character class of the regex token matching word characters (ASCII
model of the regex class). -/
def isWordChar (c : Char) : Bool := c.isAlphanum || c = '_'

/-- Character class for the release group: word characters, hyphen or
dot. -/
def isRelChar (c : Char) : Bool := isWordChar c || c = '-' || c = '.'

/-- Character class for the upstream_addr group: digits, dot or colon. -/
def isAddrChar (c : Char) : Bool := c.isDigit || c = '.' || c = ':'

/-- Literal text before the pool group in LOG_PATTERN. -/
def litPool : List Char := "pool=".toList

/-- Literal text between the pool and release groups in LOG_PATTERN. -/
def litRel : List Char := " release=".toList

/-- Literal text between the release and upstream_status groups. -/
def litStatus : List Char := " upstream_status=".toList

/-- Literal text between the upstream_status and upstream_addr groups. -/
def litAddr : List Char := " upstream_addr=".toList

/-- Match a literal character sequence at the head of the input and
return the rest, or fail. -/
def stripLit : List Char → List Char → Option (List Char)
  | [], cs => some cs
  | _ :: _, [] => none
  | p :: ps, c :: cs => if c = p then stripLit ps cs else none

/-- Match one-or-more characters of a class at the head of the input
(maximal munch) and return the matched run and the rest, or fail when the
head is not in the class.  For every greedy one-or-more group of
LOG_PATTERN the following regex token is outside the class, so maximal
munch is equivalent to the backtracking semantics of re.search. -/
def munch1 (p : Char → Bool) (cs : List Char) : Option (List Char × List Char) :=
  match cs.takeWhile p with
  | [] => none
  | c :: rest => some (c :: rest, cs.dropWhile p)

/-- Base-10 integer value of a digit run: the int() conversion applied to
the upstream_status group (watcher.py line 93). -/
def digitsToNat (ds : List Char) : Nat :=
  ds.foldl (fun n c => 10 * n + (c.toNat - 48)) 0

/-- Match LOG_PATTERN anchored at the start of the given character list,
producing the extracted LogRecord on success: the four literal field tags
and the four greedy groups in sequence. -/
def matchAt (cs : List Char) : Option LogRecord :=
  (stripLit litPool cs).bind (fun cs1 =>
  (munch1 isWordChar cs1).bind (fun pr =>
  (stripLit litRel pr.2).bind (fun cs3 =>
  (munch1 isRelChar cs3).bind (fun rr =>
  (stripLit litStatus rr.2).bind (fun cs5 =>
  (munch1 Char.isDigit cs5).bind (fun sr =>
  (stripLit litAddr sr.2).bind (fun cs7 =>
  (munch1 isAddrChar cs7).bind (fun ar =>
  some ⟨pr.1.asString, rr.1.asString, digitsToNat sr.1, ar.1.asString⟩))))))))

/-- LOG_PATTERN.search: try the anchored match at every start position,
left to right. -/
def searchPat : List Char → Option LogRecord
  | [] => none
  | c :: cs => (matchAt (c :: cs)).orElse (fun _ => searchPat cs)

/-- parse_log_line (watcher.py lines 84-95): run the pattern search over
the line; None when nothing matches. -/
def parseLogLine (line : String) : Option LogRecord :=
  searchPat line.toList

/- ### Sliding window (request_window, calculate_error_rate) -/

/-- Append one status to the window, evicting from the front beyond the
capacity: request_window.append on a deque with maxlen = WINDOW_SIZE
(watcher.py lines 28 and 158). -/
def recordStatus (cap : Nat) (w : List Nat) (s : Nat) : List Nat :=
  let w' := w ++ [s]
  if cap < w'.length then w'.drop (w'.length - cap) else w'

/-- calculate_error_rate (watcher.py lines 97-103): 0.0 on an empty
window, otherwise (count of statuses at least 500 / window length) * 100,
over exact rationals. -/
def calculateErrorRate (w : List Nat) : ℚ :=
  if w.length = 0 then 0
  else ((w.countP (fun s => decide (500 ≤ s)) : ℚ) / (w.length : ℚ)) * 100

/- ### Failover detector (detect_failover, watcher.py 105-115) -/

/-- detect_failover: on a pool different from current_pool, update
current_pool and last_pool and report the transition; otherwise report no
event and leave the state unchanged. -/
def detectFailover (st : PoolState) (newPool : String) : FailoverResult :=
  if newPool ≠ st.currentPool then
    ⟨true, some st.currentPool, some newPool, ⟨newPool, st.currentPool⟩⟩
  else
    ⟨false, none, none, st⟩

/- ### Alert dispatcher (send_slack_alert, watcher.py 39-82) -/

/-- send_slack_alert (watcher.py lines 39-82) as a pure function of the
configuration, the cooldown state, the current time and the outcome of
the HTTP post.  Branches in source order: console fallback when no
webhook URL is configured, maintenance-mode suppression for failover
alerts, the cooldown check, then the delivery attempt whose exception is
caught and reported as a failed send.  Message formatting is not
modelled; the returned effect records which branch ran. -/
def sendSlackAlert (cfg : Config) (a : AlertState) (now : ℚ)
    (outcome : PostResult) (ty : AlertType) : AlertState × Bool × SendEffect :=
  if cfg.slackWebhookUrl = "" then (a, true, SendEffect.consoleAlert)
  else if cfg.maintenanceMode = true ∧ ty = AlertType.failover then
    (a, false, SendEffect.maintenanceSuppressed)
  else if now - a.get ty < (cfg.alertCooldownSec : ℚ) then
    (a, false, SendEffect.cooldownSkipped)
  else
    match outcome with
    | PostResult.response code _ =>
      if code = 200 then (a.set ty now, true, SendEffect.slackSent)
      else (a, false, SendEffect.slackError)
    | PostResult.exception _ => (a, false, SendEffect.slackError)

/- ### Per-line pipeline (monitor_logs loop body, watcher.py 149-194) -/

/-- Failover block of the loop body (watcher.py lines 160-169): run
detect_failover on the parsed pool, store the updated pool globals, and
dispatch a failover alert when a transition was detected. -/
def failoverStage (cfg : Config) (now : ℚ) (out : AlertType → PostResult)
    (d : LogRecord) (st : WatcherState) : WatcherState × List Eff :=
  let fr := detectFailover ⟨st.currentPool, st.lastPool⟩ d.pool
  let st1 : WatcherState :=
    { st with currentPool := fr.state.currentPool, lastPool := fr.state.lastPool }
  if fr.detected then
    let s := sendSlackAlert cfg st1.alert now (out AlertType.failover) AlertType.failover
    ({ st1 with alert := s.1 }, [(AlertType.failover, s.2.2)])
  else (st1, [])

/-- Error-rate block of the loop body (watcher.py lines 171-182): once
the window holds at least min(50, WINDOW_SIZE) samples, dispatch an
error_rate alert when the rate exceeds the threshold. -/
def errorRateStage (cfg : Config) (now : ℚ) (out : AlertType → PostResult)
    (st : WatcherState) : WatcherState × List Eff :=
  if min 50 cfg.windowSize ≤ st.requestWindow.length ∧
      cfg.errorRateThreshold < calculateErrorRate st.requestWindow then
    let s := sendSlackAlert cfg st.alert now (out AlertType.error_rate) AlertType.error_rate
    ({ st with alert := s.1 }, [(AlertType.error_rate, s.2.2)])
  else (st, [])

/-- Error raised by the recovery block (watcher.py line 185).
monitor_logs declares global current_pool only (line 119) yet assigns
last_pool at line 194, so Python treats last_pool as a local variable of
monitor_logs; the read of last_pool in the recovery condition therefore
raises UnboundLocalError whenever it is reached, and line 194, sitting
behind that read, is unreachable, leaving the local forever unbound. -/
def unboundLocalMsg : String :=
  "UnboundLocalError: local variable last_pool referenced before assignment"

/-- Window update of the loop body (watcher.py line 158):
request_window.append(status). -/
def pushStatus (cfg : Config) (st : WatcherState) (d : LogRecord) : WatcherState :=
  { st with requestWindow := recordStatus cfg.windowSize st.requestWindow d.upstreamStatus }

/-- Loop body for one successfully parsed record, restricted to its
normally-completing part (watcher.py lines 154-182): push the status
into the window, then run the failover and error-rate blocks in source
order.  The recovery block (lines 184-194) contributes nothing to a
normally-completing iteration: its condition either short-circuits to
False when the observed pool differs from ACTIVE_POOL, or raises on the
read of the unbound local last_pool; the raising path is modelled by
processRecordE below. -/
def processRecord (cfg : Config) (st : WatcherState) (now : ℚ)
    (out : AlertType → PostResult) (d : LogRecord) : WatcherState × List Eff :=
  let st0 := pushStatus cfg st d
  let r1 := failoverStage cfg now out d st0
  let r2 := errorRateStage cfg now out r1.1
  (r2.1, r1.2 ++ r2.2)

/-- Loop body for one raw line, normally-completing part (watcher.py
lines 149-182): a line that does not parse is skipped with no state
change and no dispatch; the recovery-branch crash path is modelled by
processLineE. -/
def processLine (cfg : Config) (st : WatcherState) (line : String) (now : ℚ)
    (out : AlertType → PostResult) : WatcherState × List Eff :=
  match parseLogLine line with
  | none => (st, [])
  | some d => processRecord cfg st now out d

/-- One line of input to the monitoring loop: the raw text plus the
per-line environment (the wall-clock time and the delivery outcome the
external sink would produce for each category). -/
structure LineInput where
  line : String
  now : ℚ
  out : AlertType → PostResult


/- ### Exception-explicit layer (watcher.py 71-82, 184-194 and 196-202)

Two operations inside the per-line pipeline can raise.  The
requests.post call can fail with a network error; send_slack_alert wraps
it in try/except and returns False.  The read of last_pool in the
recovery condition at line 185 raises UnboundLocalError whenever it is
reached: monitor_logs assigns last_pool at line 194 without a global
declaration (line 119 declares only current_pool), so last_pool is a
local of monitor_logs, and the assignment at line 194 sits behind the
raising read and never executes.  That exception is not caught in the
loop body; it reaches the outer except handler, which terminates the
process with exit status 1.  The functions below carry these exceptions
in an Except type. -/

/-- requests.post (watcher.py line 72): either an HTTP response or a
raised exception. -/
def attemptPost : PostResult → Except String (Nat × String)
  | PostResult.response code text => Except.ok (code, text)
  | PostResult.exception msg => Except.error msg

/-- send_slack_alert with the delivery attempt routed through Except: the
try/except of watcher.py lines 71-82 turns the error case into a normal
return of False. -/
def sendSlackAlertE (cfg : Config) (a : AlertState) (now : ℚ)
    (outcome : PostResult) (ty : AlertType) :
    Except String (AlertState × Bool × SendEffect) :=
  if cfg.slackWebhookUrl = "" then Except.ok (a, true, SendEffect.consoleAlert)
  else if cfg.maintenanceMode = true ∧ ty = AlertType.failover then
    Except.ok (a, false, SendEffect.maintenanceSuppressed)
  else if now - a.get ty < (cfg.alertCooldownSec : ℚ) then
    Except.ok (a, false, SendEffect.cooldownSkipped)
  else
    match attemptPost outcome with
    | Except.ok (code, _) =>
      Except.ok (if code = 200 then (a.set ty now, true, SendEffect.slackSent)
        else (a, false, SendEffect.slackError))
    | Except.error _ => Except.ok (a, false, SendEffect.slackError)

/-- Failover block with explicit exception propagation. -/
def failoverStageE (cfg : Config) (now : ℚ) (out : AlertType → PostResult)
    (d : LogRecord) (st : WatcherState) : Except String (WatcherState × List Eff) :=
  let fr := detectFailover ⟨st.currentPool, st.lastPool⟩ d.pool
  let st1 : WatcherState :=
    { st with currentPool := fr.state.currentPool, lastPool := fr.state.lastPool }
  if fr.detected then
    (sendSlackAlertE cfg st1.alert now (out AlertType.failover) AlertType.failover).bind
      (fun s => Except.ok ({ st1 with alert := s.1 }, [(AlertType.failover, s.2.2)]))
  else Except.ok (st1, [])

/-- Error-rate block with explicit exception propagation. -/
def errorRateStageE (cfg : Config) (now : ℚ) (out : AlertType → PostResult)
    (st : WatcherState) : Except String (WatcherState × List Eff) :=
  if min 50 cfg.windowSize ≤ st.requestWindow.length ∧
      cfg.errorRateThreshold < calculateErrorRate st.requestWindow then
    (sendSlackAlertE cfg st.alert now (out AlertType.error_rate) AlertType.error_rate).bind
      (fun s => Except.ok ({ st with alert := s.1 }, [(AlertType.error_rate, s.2.2)]))
  else Except.ok (st, [])

/-- Recovery block with the scoping defect modelled faithfully
(watcher.py lines 184-194).  The condition at line 185 evaluates
pool == ACTIVE_POOL and current_pool == ACTIVE_POOL first; if either
fails, the conjunction short-circuits to False and the block is a no-op.
If both hold, the third conjunct reads last_pool, an unbound local of
monitor_logs (see unboundLocalMsg), so the block raises instead of ever
dispatching a recovery alert or reaching the assignment at line 194. -/
def recoveryStageE (cfg : Config) (d : LogRecord) (st : WatcherState) :
    Except String (WatcherState × List Eff) :=
  if d.pool = cfg.activePool ∧ st.currentPool = cfg.activePool then
    Except.error unboundLocalMsg
  else Except.ok (st, [])

/-- Loop body for one parsed record with explicit exception propagation. -/
def processRecordE (cfg : Config) (st : WatcherState) (now : ℚ)
    (out : AlertType → PostResult) (d : LogRecord) : Except String (WatcherState × List Eff) :=
  let st0 := pushStatus cfg st d
  (failoverStageE cfg now out d st0).bind (fun r1 =>
    (errorRateStageE cfg now out r1.1).bind (fun r2 =>
      (recoveryStageE cfg d r2.1).bind (fun r3 =>
        Except.ok (r3.1, r1.2 ++ r2.2 ++ r3.2))))

/-- Loop body for one raw line with explicit exception propagation. -/
def processLineE (cfg : Config) (st : WatcherState) (line : String) (now : ℚ)
    (out : AlertType → PostResult) : Except String (WatcherState × List Eff) :=
  match parseLogLine line with
  | none => Except.ok (st, [])
  | some d => processRecordE cfg st now out d

/-- The monitoring loop with explicit exception propagation: an
uncaught exception in any line's processing would abort the whole fold. -/
def runLinesE (cfg : Config) (st : WatcherState) : List LineInput → Except String (WatcherState × List Eff)
  | [] => Except.ok (st, [])
  | i :: rest =>
    (processLineE cfg st i.line i.now i.out).bind (fun r =>
      (runLinesE cfg r.1 rest).bind (fun r' =>
        Except.ok (r'.1, r.2 ++ r'.2)))

/-- Process-level result of monitor_logs (watcher.py lines 196-202): a
normal outcome, or the sys.exit(1) taken when an exception escapes the
per-line loop. -/
inductive ProcResult where
  | normal (st : WatcherState) (effs : List Eff)
  | exit1 (msg : String)
deriving DecidableEq

/-- monitor_logs restricted to a finite list of appended lines: runs the
per-line loop; an exception escaping the loop body hits the outer except
handler and terminates the process with exit code 1 (watcher.py lines
199-202). -/
def monitorLogs (cfg : Config) (st : WatcherState) (inputs : List LineInput) : ProcResult :=
  match runLinesE cfg st inputs with
  | Except.ok (st', effs) => ProcResult.normal st' effs
  | Except.error e => ProcResult.exit1 e

/- ### Spec-shape predicates for the parser claims -/

/-- Shape asserted by the spec for a parsable line: the three fields
pool=, release= and upstream_status= in order, separated by single
spaces, embedded anywhere in the line.  This follows the words of the
specification, for comparison with the source pattern. -/
def ThreeFieldShape (l : List Char) : Prop :=
  ∃ pre pool rel st rest : List Char,
    l = pre ++ (litPool ++ (pool ++ (litRel ++ (rel ++ (litStatus ++ (st ++ rest)))))) ∧
    pool ≠ [] ∧ (∀ c ∈ pool, isWordChar c = true) ∧
    rel ≠ [] ∧ (∀ c ∈ rel, isRelChar c = true) ∧
    st ≠ [] ∧ (∀ c ∈ st, c.isDigit = true)

/-- Shape actually required by LOG_PATTERN: the three fields of the spec
followed by a fourth field upstream_addr= of digits, dots and colons,
again separated by single spaces and embedded anywhere in the line. -/
def FourFieldShape (l : List Char) : Prop :=
  ∃ pre pool rel st addr rest : List Char,
    l = pre ++ (litPool ++ (pool ++ (litRel ++ (rel ++ (litStatus ++
        (st ++ (litAddr ++ (addr ++ rest)))))))) ∧
    pool ≠ [] ∧ (∀ c ∈ pool, isWordChar c = true) ∧
    rel ≠ [] ∧ (∀ c ∈ rel, isRelChar c = true) ∧
    st ≠ [] ∧ (∀ c ∈ st, c.isDigit = true) ∧
    addr ≠ [] ∧ (∀ c ∈ addr, isAddrChar c = true)

/- ### Lemmas about the sliding window -/

/-- Folding recordStatus over a status sequence from a window of length
at most the capacity keeps exactly the newest capacity-many entries. -/
theorem foldl_recordStatus (cap : Nat) (xs : List Nat) : ∀ w : List Nat, w.length ≤ cap →
    xs.foldl (recordStatus cap) w = (w ++ xs).drop (w.length + xs.length - cap) := by
  induction xs with
  | nil =>
    intro w h
    simp only [List.foldl_nil, List.append_nil, List.length_nil, Nat.add_zero]
    have h0 : w.length - cap = 0 := by omega
    rw [h0, List.drop_zero]
  | cons s rest ih =>
    intro w h
    rw [List.foldl_cons]
    by_cases h1 : cap < w.length + 1
    · have hw : w.length = cap := by omega
      have hrec : recordStatus cap w s = (w ++ [s]).drop 1 := by
        simp only [recordStatus]
        rw [if_pos (by simp; omega)]
        congr 1
        simp
        omega
      have hlen : ((w ++ [s]).drop 1).length = cap := by
        simp; omega
      rw [hrec, ih _ (le_of_eq hlen)]
      have e : (w ++ [s]).drop 1 ++ rest = ((w ++ [s]) ++ rest).drop 1 :=
        (List.drop_append_of_le_length (by simp)).symm
      rw [e, List.drop_drop]
      have e2 : (w ++ [s]) ++ rest = w ++ s :: rest := by simp
      rw [e2]
      congr 1
      simp
      omega
    · have hrec : recordStatus cap w s = w ++ [s] := by
        simp only [recordStatus]
        rw [if_neg (by simp; omega)]
      rw [hrec, ih (w ++ [s]) (by simp; omega)]
      have e2 : (w ++ [s]) ++ rest = w ++ s :: rest := by simp
      rw [e2]
      congr 1
      simp
      omega

/-- Claim C1: after recording a sequence of N parsed status codes into an
initially empty window of capacity windowSize, the window holds exactly
the last min(N, windowSize) entries, and calculate_error_rate returns
exactly 100 * (number of statuses at least 500 among those entries)
divided by min(N, windowSize), with 0 returned for an empty window so no
division by zero occurs. -/
theorem errorRate_window_exact (cap : Nat) (xs : List Nat) :
    xs.foldl (recordStatus cap) [] = xs.drop (xs.length - cap) ∧
    calculateErrorRate (xs.foldl (recordStatus cap) []) =
      if min xs.length cap = 0 then 0
      else 100 * ((xs.drop (xs.length - cap)).countP (fun s => decide (500 ≤ s)) : ℚ) /
        (min xs.length cap : ℚ) := by
  have hw := foldl_recordStatus cap xs [] (by simp)
  simp only [List.nil_append, List.length_nil, Nat.zero_add] at hw
  refine ⟨hw, ?_⟩
  rw [hw]
  unfold calculateErrorRate
  have hlen : (xs.drop (xs.length - cap)).length = min xs.length cap := by
    rw [List.length_drop]; omega
  rw [hlen]
  by_cases h0 : min xs.length cap = 0
  · rw [if_pos h0, if_pos h0]
  · rw [if_neg h0, if_neg h0]
    push_cast
    ring

/- ### Lemmas about the alert dispatcher -/

/-- Setting the timestamp of a category makes its lookup return it. -/
theorem AlertState.get_set (a : AlertState) (ty : AlertType) (t : ℚ) :
    (AlertState.set a ty t).get ty = t := by
  cases ty <;> rfl

/-- A delivery outcome that is not a 200 response: a raised network
exception or a non-200 status. -/
def DeliveryFailed (o : PostResult) : Prop :=
  ∀ c t, o = PostResult.response c t → c ≠ 200

/-- A notification was actually emitted: delivered to the sink, or
printed by the console fallback. -/
def Dispatched (e : SendEffect) : Prop :=
  e = SendEffect.slackSent ∨ e = SendEffect.consoleAlert

/-- With no webhook URL configured, send_slack_alert prints to the
console and returns True at once. -/
theorem send_eq_console (cfg : Config) (a : AlertState) (now : ℚ) (o : PostResult)
    (ty : AlertType) (hu : cfg.slackWebhookUrl = "") :
    sendSlackAlert cfg a now o ty = (a, true, SendEffect.consoleAlert) := by
  simp [sendSlackAlert, hu]

/-- With a webhook URL and maintenance mode on, a failover alert is
suppressed before the cooldown check. -/
theorem send_eq_maintenance (cfg : Config) (a : AlertState) (now : ℚ) (o : PostResult)
    (hu : cfg.slackWebhookUrl ≠ "") (hm : cfg.maintenanceMode = true) :
    sendSlackAlert cfg a now o AlertType.failover =
      (a, false, SendEffect.maintenanceSuppressed) := by
  simp [sendSlackAlert, hu, hm]

/-- An active cooldown suppresses the alert and leaves the state
unchanged. -/
theorem send_eq_cooldown (cfg : Config) (a : AlertState) (now : ℚ) (o : PostResult)
    (ty : AlertType) (hu : cfg.slackWebhookUrl ≠ "")
    (hm : ¬(cfg.maintenanceMode = true ∧ ty = AlertType.failover))
    (hc : now - a.get ty < (cfg.alertCooldownSec : ℚ)) :
    sendSlackAlert cfg a now o ty = (a, false, SendEffect.cooldownSkipped) := by
  unfold sendSlackAlert
  rw [if_neg hu, if_neg hm, if_pos hc]

/-- Past the guards, a 200 response records the send time and reports
success. -/
theorem send_eq_success (cfg : Config) (a : AlertState) (now : ℚ) (t : String)
    (ty : AlertType) (hu : cfg.slackWebhookUrl ≠ "")
    (hm : ¬(cfg.maintenanceMode = true ∧ ty = AlertType.failover))
    (hc : (cfg.alertCooldownSec : ℚ) ≤ now - a.get ty) :
    sendSlackAlert cfg a now (PostResult.response 200 t) ty =
      (AlertState.set a ty now, true, SendEffect.slackSent) := by
  unfold sendSlackAlert
  rw [if_neg hu, if_neg hm, if_neg (not_lt.mpr hc)]
  simp

/-- Past the guards, a failed delivery logs the error and leaves the
state unchanged. -/
theorem send_eq_failure (cfg : Config) (a : AlertState) (now : ℚ) (o : PostResult)
    (ty : AlertType) (hu : cfg.slackWebhookUrl ≠ "")
    (hm : ¬(cfg.maintenanceMode = true ∧ ty = AlertType.failover))
    (hc : (cfg.alertCooldownSec : ℚ) ≤ now - a.get ty)
    (hf : DeliveryFailed o) :
    sendSlackAlert cfg a now o ty = (a, false, SendEffect.slackError) := by
  unfold sendSlackAlert
  rw [if_neg hu, if_neg hm, if_neg (not_lt.mpr hc)]
  cases o with
  | response c t =>
    have h200 : c ≠ 200 := hf c t rfl
    simp [h200]
  | exception e => simp

/-- Only the console branch reports the consoleAlert effect. -/
theorem console_inversion (cfg : Config) (a : AlertState) (now : ℚ) (o : PostResult)
    (ty : AlertType)
    (h : (sendSlackAlert cfg a now o ty).2.2 = SendEffect.consoleAlert) :
    cfg.slackWebhookUrl = "" := by
  by_cases hu : cfg.slackWebhookUrl = ""
  · exact hu
  · exfalso
    unfold sendSlackAlert at h
    rw [if_neg hu] at h
    by_cases hm : cfg.maintenanceMode = true ∧ ty = AlertType.failover
    · rw [if_pos hm] at h
      simp at h
    · rw [if_neg hm] at h
      by_cases hc : now - a.get ty < (cfg.alertCooldownSec : ℚ)
      · rw [if_pos hc] at h
        simp at h
      · rw [if_neg hc] at h
        cases o with
        | response c t =>
          by_cases h200 : c = 200 <;> simp [h200] at h
        | exception e => simp at h

/-- A slackSent effect only arises when all guards were passed: a webhook
is configured, no maintenance suppression applies, the cooldown had
expired, and the timestamp of the category was set to the send time. -/
theorem sent_inversion (cfg : Config) (a : AlertState) (now : ℚ) (o : PostResult)
    (ty : AlertType)
    (h : (sendSlackAlert cfg a now o ty).2.2 = SendEffect.slackSent) :
    cfg.slackWebhookUrl ≠ "" ∧
    ¬(cfg.maintenanceMode = true ∧ ty = AlertType.failover) ∧
    ¬(now - a.get ty < (cfg.alertCooldownSec : ℚ)) ∧
    (sendSlackAlert cfg a now o ty).1 = AlertState.set a ty now := by
  unfold sendSlackAlert at h ⊢
  by_cases hu : cfg.slackWebhookUrl = ""
  · rw [if_pos hu] at h
    simp at h
  · rw [if_neg hu] at h ⊢
    by_cases hm : cfg.maintenanceMode = true ∧ ty = AlertType.failover
    · rw [if_pos hm] at h
      simp at h
    · rw [if_neg hm] at h ⊢
      by_cases hc : now - a.get ty < (cfg.alertCooldownSec : ℚ)
      · rw [if_pos hc] at h
        simp at h
      · rw [if_neg hc] at h ⊢
        refine ⟨hu, hm, hc, ?_⟩
        cases o with
        | response c t =>
          by_cases h200 : c = 200
          · simp [h200]
          · simp [h200] at h
        | exception e => simp at h

/- ### Concrete fixtures for witnesses and counterexamples -/

/-- Console-only configuration: no webhook, active pool blue, threshold
2 percent, window 200, cooldown 300 seconds, maintenance off (the
environment defaults of watcher.py lines 17-22 with no webhook set). -/
def cfgConsole : Config := ⟨"", "blue", 2, 200, 300, false⟩

/-- Configuration with a webhook endpoint and maintenance off. -/
def cfgSlack : Config := ⟨"https://hooks.example/T000/B000", "blue", 2, 200, 300, false⟩

/-- Configuration with a webhook endpoint and maintenance mode on. -/
def cfgSlackMaint : Config := ⟨"https://hooks.example/T000/B000", "blue", 2, 200, 300, true⟩

/-- Console-only configuration with maintenance mode on. -/
def cfgConsoleMaint : Config := ⟨"", "blue", 2, 200, 300, true⟩

/- ### Claim C4 -/

/-- Claim C4, counterexample to the unrestricted statement: with no sink
endpoint configured and a 300 second cooldown, two failover dispatch
calls only one second apart are both emitted through the console
fallback, so two calls within the cooldown do not yield at most one
notification. -/
theorem console_double_dispatch_counterexample :
    (1001 : ℚ) - 1000 < (cfgConsole.alertCooldownSec : ℚ) ∧
    (sendSlackAlert cfgConsole initAlertState 1000 (PostResult.response 200 "") AlertType.failover).2.2
      = SendEffect.consoleAlert ∧
    (sendSlackAlert cfgConsole
        (sendSlackAlert cfgConsole initAlertState 1000 (PostResult.response 200 "") AlertType.failover).1
        1001 (PostResult.response 200 "") AlertType.failover).2.2
      = SendEffect.consoleAlert := by
  refine ⟨by norm_num [cfgConsole], ?_, ?_⟩ <;>
    simp [sendSlackAlert, cfgConsole]

/-- Claim C4 (amended): when a sink endpoint is configured, two dispatch
calls of the same category whose times are less than the cooldown apart
emit at most one notification: if the first send succeeded, the second
call is suppressed by the cooldown check and does not update the
last-fired state.  (With no sink configured the console fallback bypasses
the cooldown check entirely, so both calls print.) -/
theorem cooldown_single_dispatch (cfg : Config) (a : AlertState) (t1 t2 : ℚ)
    (o1 o2 : PostResult) (ty : AlertType)
    (hu : cfg.slackWebhookUrl ≠ "")
    (hlt : t2 - t1 < (cfg.alertCooldownSec : ℚ)) :
    ¬(Dispatched (sendSlackAlert cfg a t1 o1 ty).2.2 ∧
        Dispatched (sendSlackAlert cfg (sendSlackAlert cfg a t1 o1 ty).1 t2 o2 ty).2.2) ∧
    ((sendSlackAlert cfg a t1 o1 ty).2.2 = SendEffect.slackSent →
      sendSlackAlert cfg (sendSlackAlert cfg a t1 o1 ty).1 t2 o2 ty =
        ((sendSlackAlert cfg a t1 o1 ty).1, false, SendEffect.cooldownSkipped)) := by
  have hskip : (sendSlackAlert cfg a t1 o1 ty).2.2 = SendEffect.slackSent →
      sendSlackAlert cfg (sendSlackAlert cfg a t1 o1 ty).1 t2 o2 ty =
        ((sendSlackAlert cfg a t1 o1 ty).1, false, SendEffect.cooldownSkipped) := by
    intro hs
    obtain ⟨-, hm, -, hset⟩ := sent_inversion cfg a t1 o1 ty hs
    apply send_eq_cooldown cfg _ t2 o2 ty hu hm
    rw [hset, AlertState.get_set]
    exact hlt
  refine ⟨?_, hskip⟩
  rintro ⟨hd1, hd2⟩
  cases hd1 with
  | inr hcon => exact hu (console_inversion cfg a t1 o1 ty hcon)
  | inl hs1 =>
    have h2 := hskip hs1
    cases hd2 with
    | inl hs2 => rw [h2] at hs2; simp at hs2
    | inr hcon2 => rw [h2] at hcon2; simp at hcon2

/-- Claim C4 witness: concrete two-call run with a configured sink, a
successful first delivery at time 1000 and a second call at 1100, inside
the 300 second cooldown. -/
theorem cooldown_single_dispatch_witness :
    ¬(Dispatched (sendSlackAlert cfgSlack initAlertState 1000 (PostResult.response 200 "ok") AlertType.failover).2.2 ∧
        Dispatched (sendSlackAlert cfgSlack
          (sendSlackAlert cfgSlack initAlertState 1000 (PostResult.response 200 "ok") AlertType.failover).1
          1100 (PostResult.response 200 "ok") AlertType.failover).2.2) ∧
    ((sendSlackAlert cfgSlack initAlertState 1000 (PostResult.response 200 "ok") AlertType.failover).2.2 = SendEffect.slackSent →
      sendSlackAlert cfgSlack
          (sendSlackAlert cfgSlack initAlertState 1000 (PostResult.response 200 "ok") AlertType.failover).1
          1100 (PostResult.response 200 "ok") AlertType.failover =
        ((sendSlackAlert cfgSlack initAlertState 1000 (PostResult.response 200 "ok") AlertType.failover).1,
          false, SendEffect.cooldownSkipped)) :=
  cooldown_single_dispatch cfgSlack initAlertState 1000 1100
    (PostResult.response 200 "ok") (PostResult.response 200 "ok") AlertType.failover
    (by decide) (by norm_num [cfgSlack])

/- ### Claim C5 -/

/-- Claim C5: the last-fired timestamp of a category is advanced only on
a confirmed successful delivery (a 200 response past all guards); a
failed delivery (network exception or non-200 response) reaching the
delivery attempt is logged as a slackError, returns False and leaves the
state unchanged; and a retry whose time has passed the real cooldown and
whose delivery succeeds is recorded. -/
theorem lastFired_only_on_success (cfg : Config) (a : AlertState) (now : ℚ)
    (o : PostResult) (ty : AlertType) :
    ((sendSlackAlert cfg a now o ty).1 ≠ a →
      (sendSlackAlert cfg a now o ty).2.2 = SendEffect.slackSent ∧
      ∃ t, o = PostResult.response 200 t) ∧
    (cfg.slackWebhookUrl ≠ "" → ¬(cfg.maintenanceMode = true ∧ ty = AlertType.failover) →
      (cfg.alertCooldownSec : ℚ) ≤ now - a.get ty → DeliveryFailed o →
      sendSlackAlert cfg a now o ty = (a, false, SendEffect.slackError)) ∧
    (cfg.slackWebhookUrl ≠ "" → ¬(cfg.maintenanceMode = true ∧ ty = AlertType.failover) →
      (cfg.alertCooldownSec : ℚ) ≤ now - a.get ty → ∀ t, o = PostResult.response 200 t →
      sendSlackAlert cfg a now o ty = (AlertState.set a ty now, true, SendEffect.slackSent)) := by
  refine ⟨?_, ?_, ?_⟩
  · intro hne
    by_cases hu : cfg.slackWebhookUrl = ""
    · rw [send_eq_console cfg a now o ty hu] at hne
      simp at hne
    · by_cases hm : cfg.maintenanceMode = true ∧ ty = AlertType.failover
      · obtain ⟨hm1, hm2⟩ := hm
        rw [hm2] at hne
        rw [send_eq_maintenance cfg a now o hu hm1] at hne
        simp at hne
      · by_cases hc : now - a.get ty < (cfg.alertCooldownSec : ℚ)
        · rw [send_eq_cooldown cfg a now o ty hu hm hc] at hne
          simp at hne
        · cases o with
          | response c t =>
            by_cases h200 : c = 200
            · subst h200
              rw [send_eq_success cfg a now t ty hu hm (not_lt.mp hc)]
              exact ⟨rfl, t, rfl⟩
            · rw [send_eq_failure cfg a now _ ty hu hm (not_lt.mp hc)
                (by intro c' t' he hcc; cases he; exact h200 hcc)] at hne
              simp at hne
          | exception e =>
            rw [send_eq_failure cfg a now _ ty hu hm (not_lt.mp hc)
              (by intro c' t' he; cases he)] at hne
            simp at hne
  · intro hu hm hc hf
    exact send_eq_failure cfg a now o ty hu hm hc hf
  · intro hu hm hc t ht
    subst ht
    exact send_eq_success cfg a now t ty hu hm hc

/-- Claim C5 witness: with a configured sink and the cooldown expired, a
network exception leaves the state unchanged and a 200 delivery records
the send time. -/
theorem lastFired_only_on_success_witness :
    sendSlackAlert cfgSlack initAlertState 1000 (PostResult.exception "connection refused") AlertType.error_rate
      = (initAlertState, false, SendEffect.slackError) ∧
    sendSlackAlert cfgSlack initAlertState 1000 (PostResult.response 200 "ok") AlertType.error_rate
      = (AlertState.set initAlertState AlertType.error_rate 1000, true, SendEffect.slackSent) :=
  ⟨(lastFired_only_on_success cfgSlack initAlertState 1000
      (PostResult.exception "connection refused") AlertType.error_rate).2.1
      (by decide) (by simp [cfgSlack]) (by norm_num [cfgSlack, initAlertState, AlertState.get])
      (by intro c t h; cases h),
    (lastFired_only_on_success cfgSlack initAlertState 1000
      (PostResult.response 200 "ok") AlertType.error_rate).2.2
      (by decide) (by simp [cfgSlack]) (by norm_num [cfgSlack, initAlertState, AlertState.get])
      "ok" rfl⟩

/- ### Claim C6 -/

/-- Claim C6, counterexample: with no sink configured, a cooldown of 300
seconds and a last-fired time of 0, a dispatch at time 1 is inside the
cooldown window, yet it is emitted through the console fallback and the
last-fired state is not advanced — so the console path neither respects
the cooldown check nor updates the cooldown bookkeeping as the claim
states. -/
theorem console_bookkeeping_counterexample :
    (1 : ℚ) - initAlertState.get AlertType.failover < (cfgConsole.alertCooldownSec : ℚ) ∧
    sendSlackAlert cfgConsole initAlertState 1 (PostResult.response 200 "") AlertType.failover
      = (initAlertState, true, SendEffect.consoleAlert) ∧
    (sendSlackAlert cfgConsole initAlertState 1 (PostResult.response 200 "") AlertType.failover).1.get
        AlertType.failover ≠ 1 := by
  refine ⟨by norm_num [cfgConsole, initAlertState, AlertState.get], ?_, ?_⟩ <;>
    norm_num [sendSlackAlert, cfgConsole, initAlertState, AlertState.get]

/-- Claim C6 (amended): when no sink endpoint is configured, dispatch
writes the formatted message to the operational log and returns success,
but this path bypasses the cooldown bookkeeping entirely: it neither
performs the cooldown check nor updates the last-fired state. -/
theorem console_dispatch_no_bookkeeping (cfg : Config) (a : AlertState) (now : ℚ)
    (o : PostResult) (ty : AlertType) (hu : cfg.slackWebhookUrl = "") :
    sendSlackAlert cfg a now o ty = (a, true, SendEffect.consoleAlert) :=
  send_eq_console cfg a now o ty hu

/-- Claim C6 witness: the console path at time 1 under an active
cooldown. -/
theorem console_dispatch_no_bookkeeping_witness :
    sendSlackAlert cfgConsole initAlertState 1 (PostResult.response 200 "") AlertType.recovery
      = (initAlertState, true, SendEffect.consoleAlert) :=
  console_dispatch_no_bookkeeping cfgConsole initAlertState 1 (PostResult.response 200 "")
    AlertType.recovery rfl

/- ### Claim C7 -/

/-- Claim C7, counterexample: with maintenance mode enabled but no sink
endpoint configured, a failover-category dispatch is still emitted
through the console fallback, because the console branch runs before the
maintenance-mode check. -/
theorem maintenance_console_counterexample :
    cfgConsoleMaint.maintenanceMode = true ∧
    sendSlackAlert cfgConsoleMaint initAlertState 1000 (PostResult.response 200 "") AlertType.failover
      = (initAlertState, true, SendEffect.consoleAlert) := by
  refine ⟨rfl, ?_⟩
  simp [sendSlackAlert, cfgConsoleMaint]

/-- Claim C7 (amended): with maintenance mode enabled and a sink endpoint
configured, no failover-category notification is ever dispatched: the
suppression happens before the cooldown check, returns False and does not
touch the last-fired state.  With no sink configured, the console
fallback still prints failover alerts. -/
theorem maintenance_suppresses_failover (cfg : Config) (a : AlertState) (now : ℚ)
    (o : PostResult) (hm : cfg.maintenanceMode = true) (hu : cfg.slackWebhookUrl ≠ "") :
    sendSlackAlert cfg a now o AlertType.failover =
      (a, false, SendEffect.maintenanceSuppressed) ∧
    ¬ Dispatched (sendSlackAlert cfg a now o AlertType.failover).2.2 := by
  have he := send_eq_maintenance cfg a now o hu hm
  refine ⟨he, ?_⟩
  rw [he]
  rintro (h | h) <;> simp at h

/-- Claim C7 witness: maintenance suppression of a failover alert with a
configured webhook. -/
theorem maintenance_suppresses_failover_witness :
    sendSlackAlert cfgSlackMaint initAlertState 1000 (PostResult.response 200 "") AlertType.failover
      = (initAlertState, false, SendEffect.maintenanceSuppressed) ∧
    ¬ Dispatched (sendSlackAlert cfgSlackMaint initAlertState 1000 (PostResult.response 200 "")
        AlertType.failover).2.2 :=
  maintenance_suppresses_failover cfgSlackMaint initAlertState 1000 (PostResult.response 200 "")
    rfl (by decide)

/- ### Claim C2 -/

/-- The pool recorded as current after detect_failover is always the
observed pool. -/
theorem detectFailover_current (ps : PoolState) (p : String) :
    (detectFailover ps p).state.currentPool = p := by
  unfold detectFailover
  by_cases h : p ≠ ps.currentPool
  · rw [if_pos h]
  · rw [if_neg h]
    exact (not_ne_iff.mp h).symm

/-- detect_failover reports a transition whenever the observed pool
differs from the current pool. -/
theorem detectFailover_detected_of_ne (ps : PoolState) (p : String)
    (h : p ≠ ps.currentPool) : (detectFailover ps p).detected = true := by
  unfold detectFailover
  rw [if_pos h]

/-- Claim C2, counterexample: with the configured active pool blue, the
very first record that is observed, carrying pool green, already triggers
a failover dispatch — the first observed pool does not merely establish a
baseline, because current_pool is initialized to ACTIVE_POOL rather than
to an unset value. -/
theorem first_record_failover_counterexample :
    (processLine cfgConsole (initWatcherState cfgConsole)
      "pool=green release=v1 upstream_status=200 upstream_addr=10.0.0.1:80" 1000
      (fun _ => PostResult.response 200 "")).2
      = [(AlertType.failover, SendEffect.consoleAlert)] := by
  decide

/-- Claim C2 (amended): current_pool starts equal to the configured
active pool, so the first observed pool triggers a FailoverEvent exactly
when it differs from the configured active pool; a second observed pool
that is distinct from the first observed one always triggers a
FailoverEvent. -/
theorem failover_first_observation (active p1 p2 : String) (h : p2 ≠ p1) :
    ((detectFailover (PoolState.mk active active) p1).detected = true ↔ p1 ≠ active) ∧
    (detectFailover (detectFailover (PoolState.mk active active) p1).state p2).detected = true := by
  constructor
  · unfold detectFailover
    by_cases h1 : p1 ≠ active
    · simp [h1]
    · simp [h1]
  · apply detectFailover_detected_of_ne
    rw [detectFailover_current]
    exact h

/-- Claim C2 witness: active pool blue, first observation green, second
observation blue. -/
theorem failover_first_observation_witness :
    (((detectFailover (PoolState.mk "blue" "blue") "green").detected = true) ↔
      ("green" : String) ≠ "blue") ∧
    (detectFailover (detectFailover (PoolState.mk "blue" "blue") "green").state "blue").detected
      = true :=
  failover_first_observation "blue" "green" "blue" (by decide)

/- ### Claim C10 -/

/-- Claim C10: a line that the pattern does not match leaves the whole
state — window, current_pool, last_pool and cooldown table — unchanged
and produces no dispatch of any category. -/
theorem malformed_line_no_effect (cfg : Config) (st : WatcherState) (line : String)
    (now : ℚ) (out : AlertType → PostResult) (h : parseLogLine line = none) :
    processLine cfg st line now out = (st, []) := by
  unfold processLine
  rw [h]

/-- Claim C10 witness: an unrelated log line that lacks the required
fields. -/
theorem malformed_line_no_effect_witness :
    processLine cfgConsole (initWatcherState cfgConsole)
      "127.0.0.1 - - GET /health HTTP/1.1 200" 1000 (fun _ => PostResult.response 200 "")
      = (initWatcherState cfgConsole, []) :=
  malformed_line_no_effect cfgConsole (initWatcherState cfgConsole)
    "127.0.0.1 - - GET /health HTTP/1.1 200" 1000 (fun _ => PostResult.response 200 "")
    (by decide)

/- ### Lemmas about the per-line stage composition -/

/-- Unfolding equation for processRecord as the two-stage composition. -/
theorem processRecord_def (cfg : Config) (st : WatcherState) (now : ℚ)
    (out : AlertType → PostResult) (d : LogRecord) :
    processRecord cfg st now out d =
      ((errorRateStage cfg now out (failoverStage cfg now out d (pushStatus cfg st d)).1).1,
        (failoverStage cfg now out d (pushStatus cfg st d)).2 ++
        (errorRateStage cfg now out (failoverStage cfg now out d (pushStatus cfg st d)).1).2) :=
  rfl

/-- The last pool recorded by detect_failover. -/
theorem detectFailover_last (ps : PoolState) (p : String) :
    (detectFailover ps p).state.lastPool =
      if p ≠ ps.currentPool then ps.currentPool else ps.lastPool := by
  unfold detectFailover
  by_cases h : p ≠ ps.currentPool <;> simp [h]

/-- The failover stage records the observed pool as current, stores the
detect_failover last pool, and does not touch the window. -/
theorem failoverStage_state (cfg : Config) (now : ℚ) (out : AlertType → PostResult)
    (d : LogRecord) (st : WatcherState) :
    (failoverStage cfg now out d st).1.currentPool = d.pool ∧
    (failoverStage cfg now out d st).1.lastPool =
      (if d.pool ≠ st.currentPool then st.currentPool else st.lastPool) ∧
    (failoverStage cfg now out d st).1.requestWindow = st.requestWindow := by
  unfold failoverStage
  by_cases hd : (detectFailover ⟨st.currentPool, st.lastPool⟩ d.pool).detected = true <;>
    simp [hd, detectFailover_current, detectFailover_last]

/-- The error-rate stage only touches the cooldown table. -/
theorem errorRateStage_state (cfg : Config) (now : ℚ) (out : AlertType → PostResult)
    (st : WatcherState) :
    (errorRateStage cfg now out st).1.currentPool = st.currentPool ∧
    (errorRateStage cfg now out st).1.lastPool = st.lastPool ∧
    (errorRateStage cfg now out st).1.requestWindow = st.requestWindow := by
  unfold errorRateStage
  by_cases hc : min 50 cfg.windowSize ≤ st.requestWindow.length ∧
      cfg.errorRateThreshold < calculateErrorRate st.requestWindow
  · rw [if_pos hc]
    exact ⟨rfl, rfl, rfl⟩
  · rw [if_neg hc]
    exact ⟨rfl, rfl, rfl⟩

/- ### Error containment lemmas -/

/-- The dispatcher never lets the delivery exception escape: the
try/except around requests.post converts it into a normal False return. -/
theorem sendSlackAlertE_ok (cfg : Config) (a : AlertState) (now : ℚ)
    (o : PostResult) (ty : AlertType) :
    sendSlackAlertE cfg a now o ty = Except.ok (sendSlackAlert cfg a now o ty) := by
  cases o <;> (unfold sendSlackAlertE sendSlackAlert attemptPost; split_ifs <;> rfl)

/-- The failover stage never raises. -/
theorem failoverStageE_ok (cfg : Config) (now : ℚ) (out : AlertType → PostResult)
    (d : LogRecord) (st : WatcherState) :
    failoverStageE cfg now out d st = Except.ok (failoverStage cfg now out d st) := by
  unfold failoverStageE failoverStage
  by_cases hd : (detectFailover ⟨st.currentPool, st.lastPool⟩ d.pool).detected = true
  · simp only [hd, if_true, sendSlackAlertE_ok, Except.bind]
  · simp only [hd, Bool.false_eq_true, if_false]

/-- The error-rate stage never raises. -/
theorem errorRateStageE_ok (cfg : Config) (now : ℚ) (out : AlertType → PostResult)
    (st : WatcherState) :
    errorRateStageE cfg now out st = Except.ok (errorRateStage cfg now out st) := by
  unfold errorRateStageE errorRateStage
  by_cases hc : min 50 cfg.windowSize ≤ st.requestWindow.length ∧
      cfg.errorRateThreshold < calculateErrorRate st.requestWindow
  · rw [if_pos hc, if_pos hc, sendSlackAlertE_ok]
    rfl
  · rw [if_neg hc, if_neg hc]

/-- The recovery block is a no-op when its guard short-circuits. -/
theorem recoveryStageE_no_crash (cfg : Config) (d : LogRecord) (st : WatcherState)
    (h : ¬(d.pool = cfg.activePool ∧ st.currentPool = cfg.activePool)) :
    recoveryStageE cfg d st = Except.ok (st, []) := by
  unfold recoveryStageE
  rw [if_neg h]

/-- The recovery block raises UnboundLocalError when a record observing
the active pool is processed while current_pool equals the active pool. -/
theorem recoveryStageE_crash (cfg : Config) (d : LogRecord) (st : WatcherState)
    (h1 : d.pool = cfg.activePool) (h2 : st.currentPool = cfg.activePool) :
    recoveryStageE cfg d st = Except.error unboundLocalMsg := by
  unfold recoveryStageE
  rw [if_pos ⟨h1, h2⟩]

/-- A parsed record whose pool differs from the active pool is processed
without raising, and the result is the normally-completing loop body. -/
theorem processRecordE_no_crash (cfg : Config) (st : WatcherState) (now : ℚ)
    (out : AlertType → PostResult) (d : LogRecord) (hd : d.pool ≠ cfg.activePool) :
    processRecordE cfg st now out d = Except.ok (processRecord cfg st now out d) := by
  unfold processRecordE
  dsimp only
  rw [failoverStageE_ok]
  simp only [Except.bind]
  rw [errorRateStageE_ok]
  simp only [Except.bind]
  rw [recoveryStageE_no_crash cfg d _ (fun hc => hd hc.1)]
  simp only [Except.bind]
  rw [processRecord_def]
  simp

/-- A parsed record whose pool equals the active pool always raises
UnboundLocalError in the recovery block: after detect_failover the
current pool equals the observed pool, so both short-circuit conjuncts
of the condition at watcher.py line 185 hold and the read of the
unbound local last_pool is reached. -/
theorem processRecordE_crash (cfg : Config) (st : WatcherState) (now : ℚ)
    (out : AlertType → PostResult) (d : LogRecord) (hd : d.pool = cfg.activePool) :
    processRecordE cfg st now out d = Except.error unboundLocalMsg := by
  unfold processRecordE
  dsimp only
  rw [failoverStageE_ok]
  simp only [Except.bind]
  rw [errorRateStageE_ok]
  simp only [Except.bind]
  have hcur : (errorRateStage cfg now out
      (failoverStage cfg now out d (pushStatus cfg st d)).1).1.currentPool = cfg.activePool := by
    rw [(errorRateStage_state cfg now out
        (failoverStage cfg now out d (pushStatus cfg st d)).1).1,
      (failoverStage_state cfg now out d (pushStatus cfg st d)).1, hd]
  rw [recoveryStageE_crash cfg d _ hd hcur]

/-- A line that does not parse is skipped without raising. -/
theorem processLineE_none (cfg : Config) (st : WatcherState) (line : String) (now : ℚ)
    (out : AlertType → PostResult) (h : parseLogLine line = none) :
    processLineE cfg st line now out = Except.ok (st, []) := by
  unfold processLineE
  rw [h]

/-- A line parsing to a pool other than the active pool is processed
without raising. -/
theorem processLineE_no_crash (cfg : Config) (st : WatcherState) (line : String) (now : ℚ)
    (out : AlertType → PostResult) (d : LogRecord) (h : parseLogLine line = some d)
    (hd : d.pool ≠ cfg.activePool) :
    processLineE cfg st line now out = Except.ok (processLine cfg st line now out) := by
  unfold processLineE processLine
  rw [h]
  exact processRecordE_no_crash cfg st now out d hd

/-- A line parsing to the active pool raises UnboundLocalError. -/
theorem processLineE_crash (cfg : Config) (st : WatcherState) (line : String) (now : ℚ)
    (out : AlertType → PostResult) (d : LogRecord) (h : parseLogLine line = some d)
    (hd : d.pool = cfg.activePool) :
    processLineE cfg st line now out = Except.error unboundLocalMsg := by
  unfold processLineE
  rw [h]
  exact processRecordE_crash cfg st now out d hd

/- ### Claim C8 -/

/-- Concrete line observing the active pool with a healthy status. -/
def c8Line : String := "pool=blue release=v1 upstream_status=200 upstream_addr=10.0.0.1:80"

/-- Concrete state after a failover away from the active pool blue:
current_pool green, last_pool blue. -/
def c8State : WatcherState := ⟨"green", "blue", [], initAlertState⟩

/-- Claim C8, code bug: the recovery branch can never dispatch.
monitor_logs assigns last_pool at watcher.py line 194 without a global
declaration (line 119 declares only current_pool), so last_pool is an
unbound local and the read in the recovery condition at line 185 raises
UnboundLocalError.  Evaluated at the claimed return-to-baseline input —
after a failover away from blue, a healthy record on pool blue arrives —
the watcher does not dispatch the recovery notification the claim
describes: the exception reaches the outer handler and the process
exits with status 1. -/
theorem recovery_read_exits_process :
    monitorLogs cfgConsole c8State
      [⟨c8Line, 1000, fun _ => PostResult.response 200 ""⟩]
      = ProcResult.exit1 unboundLocalMsg := by
  decide

/- ### Claim C9 -/

/-- Claim C9, code bug: per-line errors are not all contained within the
pipeline.  From the initial state, the very first ordinary baseline line
— a record whose pool equals the configured active pool — raises
UnboundLocalError at watcher.py line 185 (unbound local last_pool); the
outer except handler catches it and terminates the process via
sys.exit(1), so processing one input line escalates to process-level
control flow. -/
theorem first_baseline_line_exits_process :
    monitorLogs cfgConsole (initWatcherState cfgConsole)
      [⟨"pool=blue release=1.0 upstream_status=200 upstream_addr=10.0.0.1:80", 1000,
        fun _ => PostResult.response 200 ""⟩]
      = ProcResult.exit1 unboundLocalMsg := by
  decide

/- ### Parser lemmas -/

/-- A successful literal match decomposes the input. -/
theorem stripLit_sound : ∀ (p cs r : List Char), stripLit p cs = some r → cs = p ++ r := by
  intro p
  induction p with
  | nil =>
    intro cs r h
    simp only [stripLit] at h
    exact Option.some.inj h
  | cons a ps ih =>
    intro cs r h
    cases cs with
    | nil => exact Option.noConfusion h
    | cons c cs' =>
      simp only [stripLit] at h
      by_cases hca : c = a
      · rw [if_pos hca] at h
        rw [hca, List.cons_append, ih cs' r h]
      · rw [if_neg hca] at h
        exact Option.noConfusion h

/-- A literal always matches itself at the head. -/
theorem stripLit_self : ∀ (p r : List Char), stripLit p (p ++ r) = some r := by
  intro p r
  induction p with
  | nil => rfl
  | cons a ps ih => simp [stripLit, ih]

/-- A successful greedy-group match decomposes the input into a nonempty
run of class characters and the remainder. -/
theorem munch1_sound (p : Char → Bool) (cs t r : List Char) (h : munch1 p cs = some (t, r)) :
    cs = t ++ r ∧ t ≠ [] ∧ ∀ c ∈ t, p c = true := by
  unfold munch1 at h
  cases htw : cs.takeWhile p with
  | nil =>
    rw [htw] at h
    exact Option.noConfusion h
  | cons c rest =>
    rw [htw] at h
    have h' : (c :: rest, cs.dropWhile p) = (t, r) := Option.some.inj h
    cases h'
    refine ⟨?_, by simp, ?_⟩
    · have hsplit := List.takeWhile_append_dropWhile (p := p) (l := cs)
      rw [htw] at hsplit
      exact hsplit.symm
    · intro x hx
      rw [← htw] at hx
      exact List.mem_takeWhile_imp hx

/-- takeWhile stops exactly at the first character outside the class. -/
theorem takeWhile_all_cons (p : Char → Bool) (t : List Char) (c : Char) (r : List Char)
    (ht : ∀ x ∈ t, p x = true) (hc : p c = false) :
    (t ++ c :: r).takeWhile p = t := by
  induction t with
  | nil => simp [List.takeWhile_cons, hc]
  | cons a t' ih =>
    have ha : p a = true := ht a (by simp)
    simp only [List.cons_append, List.takeWhile_cons, ha, if_true]
    rw [ih (fun x hx => ht x (by simp [hx]))]

/-- dropWhile drops exactly the leading class run. -/
theorem dropWhile_all_cons (p : Char → Bool) (t : List Char) (c : Char) (r : List Char)
    (ht : ∀ x ∈ t, p x = true) (hc : p c = false) :
    (t ++ c :: r).dropWhile p = c :: r := by
  induction t with
  | nil => simp [List.dropWhile_cons, hc]
  | cons a t' ih =>
    have ha : p a = true := ht a (by simp)
    simp only [List.cons_append, List.dropWhile_cons, ha, if_true]
    exact ih (fun x hx => ht x (by simp [hx]))

/-- The greedy group matches exactly a nonempty class run delimited by a
character outside the class: maximal munch agrees with backtracking. -/
theorem munch1_exact (p : Char → Bool) (t : List Char) (c : Char) (r : List Char)
    (htne : t ≠ []) (ht : ∀ x ∈ t, p x = true) (hc : p c = false) :
    munch1 p (t ++ c :: r) = some (t, c :: r) := by
  unfold munch1
  rw [takeWhile_all_cons p t c r ht hc, dropWhile_all_cons p t c r ht hc]
  cases t with
  | nil => exact absurd rfl htne
  | cons a t' => rfl

/-- A greedy group at the end of the pattern succeeds on any nonempty
leading class run. -/
theorem munch1_isSome_append (p : Char → Bool) (t r : List Char) (htne : t ≠ [])
    (ht : ∀ x ∈ t, p x = true) : (munch1 p (t ++ r)).isSome = true := by
  cases t with
  | nil => exact absurd rfl htne
  | cons a t' =>
    have ha : p a = true := ht a (by simp)
    simp [munch1, List.takeWhile_cons, ha]

/-- Head-tail form of the release field tag. -/
theorem litRel_cons (Z : List Char) : litRel ++ Z = litRel.headI :: (litRel.tail ++ Z) := by
  have h : litRel = litRel.headI :: litRel.tail := by decide
  conv_lhs => rw [h]
  rfl

/-- Head-tail form of the status field tag. -/
theorem litStatus_cons (Z : List Char) :
    litStatus ++ Z = litStatus.headI :: (litStatus.tail ++ Z) := by
  have h : litStatus = litStatus.headI :: litStatus.tail := by decide
  conv_lhs => rw [h]
  rfl

/-- Head-tail form of the address field tag. -/
theorem litAddr_cons (Z : List Char) : litAddr ++ Z = litAddr.headI :: (litAddr.tail ++ Z) := by
  have h : litAddr = litAddr.headI :: litAddr.tail := by decide
  conv_lhs => rw [h]
  rfl

/-- The space opening the release tag is not a word character. -/
theorem wordChar_litRel_head : isWordChar litRel.headI = false := by decide

/-- The space opening the status tag is not a release character. -/
theorem relChar_litStatus_head : isRelChar litStatus.headI = false := by decide

/-- The space opening the address tag is not a digit. -/
theorem digit_litAddr_head : Char.isDigit litAddr.headI = false := by decide

/-- The pool group munches exactly the pool token when followed by the
release tag. -/
theorem munch1_pool (pool Z : List Char) (hpne : pool ≠ [])
    (hpw : ∀ c ∈ pool, isWordChar c = true) :
    munch1 isWordChar (pool ++ (litRel ++ Z)) = some (pool, litRel ++ Z) := by
  rw [litRel_cons Z]
  exact munch1_exact isWordChar pool litRel.headI (litRel.tail ++ Z) hpne hpw wordChar_litRel_head

/-- The release group munches exactly the release token when followed by
the status tag. -/
theorem munch1_release (rel Z : List Char) (hrne : rel ≠ [])
    (hrw : ∀ c ∈ rel, isRelChar c = true) :
    munch1 isRelChar (rel ++ (litStatus ++ Z)) = some (rel, litStatus ++ Z) := by
  rw [litStatus_cons Z]
  exact munch1_exact isRelChar rel litStatus.headI (litStatus.tail ++ Z) hrne hrw
    relChar_litStatus_head

/-- The status group munches exactly the digit run when followed by the
address tag. -/
theorem munch1_status (st Z : List Char) (hsne : st ≠ [])
    (hsw : ∀ c ∈ st, c.isDigit = true) :
    munch1 Char.isDigit (st ++ (litAddr ++ Z)) = some (st, litAddr ++ Z) := by
  rw [litAddr_cons Z]
  exact munch1_exact Char.isDigit st litAddr.headI (litAddr.tail ++ Z) hsne hsw
    digit_litAddr_head

/-- A successful anchored match yields the four-field decomposition of
the input. -/
theorem matchAt_sound (cs : List Char) (r : LogRecord) (h : matchAt cs = some r) :
    ∃ pool rel st addr rest : List Char,
      cs = litPool ++ (pool ++ (litRel ++ (rel ++ (litStatus ++ (st ++ (litAddr ++ (addr ++ rest))))))) ∧
      pool ≠ [] ∧ (∀ c ∈ pool, isWordChar c = true) ∧
      rel ≠ [] ∧ (∀ c ∈ rel, isRelChar c = true) ∧
      st ≠ [] ∧ (∀ c ∈ st, c.isDigit = true) ∧
      addr ≠ [] ∧ (∀ c ∈ addr, isAddrChar c = true) := by
  unfold matchAt at h
  rw [Option.bind_eq_some] at h
  obtain ⟨cs1, h1, h⟩ := h
  rw [Option.bind_eq_some] at h
  obtain ⟨⟨pool, cs2⟩, h2, h⟩ := h
  rw [Option.bind_eq_some] at h
  obtain ⟨cs3, h3, h⟩ := h
  rw [Option.bind_eq_some] at h
  obtain ⟨⟨rel, cs4⟩, h4, h⟩ := h
  rw [Option.bind_eq_some] at h
  obtain ⟨cs5, h5, h⟩ := h
  rw [Option.bind_eq_some] at h
  obtain ⟨⟨st, cs6⟩, h6, h⟩ := h
  rw [Option.bind_eq_some] at h
  obtain ⟨cs7, h7, h⟩ := h
  rw [Option.bind_eq_some] at h
  obtain ⟨⟨addr, cs8⟩, h8, -⟩ := h
  have e1 := stripLit_sound litPool cs cs1 h1
  obtain ⟨e2, hpne, hpw⟩ := munch1_sound isWordChar cs1 pool cs2 h2
  have e3 := stripLit_sound litRel cs2 cs3 h3
  obtain ⟨e4, hrne, hrw⟩ := munch1_sound isRelChar cs3 rel cs4 h4
  have e5 := stripLit_sound litStatus cs4 cs5 h5
  obtain ⟨e6, hsne, hsw⟩ := munch1_sound Char.isDigit cs5 st cs6 h6
  have e7 := stripLit_sound litAddr cs6 cs7 h7
  obtain ⟨e8, hane, haw⟩ := munch1_sound isAddrChar cs7 addr cs8 h8
  refine ⟨pool, rel, st, addr, cs8, ?_, hpne, hpw, hrne, hrw, hsne, hsw, hane, haw⟩
  rw [e1, e2, e3, e4, e5, e6, e7, e8]

/-- A four-field decomposition guarantees the anchored match succeeds. -/
theorem matchAt_complete (pool rel st addr rest : List Char)
    (hpne : pool ≠ []) (hpw : ∀ c ∈ pool, isWordChar c = true)
    (hrne : rel ≠ []) (hrw : ∀ c ∈ rel, isRelChar c = true)
    (hsne : st ≠ []) (hsw : ∀ c ∈ st, c.isDigit = true)
    (hane : addr ≠ []) (haw : ∀ c ∈ addr, isAddrChar c = true) :
    (matchAt (litPool ++ (pool ++ (litRel ++ (rel ++ (litStatus ++
      (st ++ (litAddr ++ (addr ++ rest))))))))).isSome = true := by
  obtain ⟨v, hv⟩ := Option.isSome_iff_exists.mp (munch1_isSome_append isAddrChar addr rest hane haw)
  simp only [matchAt, stripLit_self, Option.some_bind,
    munch1_pool pool _ hpne hpw, munch1_release rel _ hrne hrw,
    munch1_status st _ hsne hsw, hv, Option.isSome_some]

/-- Adding characters at the front preserves the four-field shape. -/
theorem fourFieldShape_cons (c : Char) (l : List Char) (h : FourFieldShape l) :
    FourFieldShape (c :: l) := by
  obtain ⟨pre, pool, rel, st, addr, rest, he, hcs⟩ := h
  exact ⟨c :: pre, pool, rel, st, addr, rest, by rw [he]; rfl, hcs⟩

/-- A successful pattern search yields the four-field shape somewhere in
the line. -/
theorem searchPat_sound : ∀ (l : List Char) (r : LogRecord), searchPat l = some r →
    FourFieldShape l := by
  intro l
  induction l with
  | nil => intro r h; exact Option.noConfusion h
  | cons c cs ih =>
    intro r h
    simp only [searchPat] at h
    cases hm : matchAt (c :: cs) with
    | some r' =>
      obtain ⟨pool, rel, st, addr, rest, he, hcs⟩ := matchAt_sound (c :: cs) r' hm
      exact ⟨[], pool, rel, st, addr, rest, he.trans (List.nil_append _).symm, hcs⟩
    | none =>
      rw [hm] at h
      exact fourFieldShape_cons c cs (ih r h)

/-- A successful anchored match at any suffix makes the search succeed. -/
theorem searchPat_complete : ∀ (pre s : List Char), (matchAt s).isSome = true →
    (searchPat (pre ++ s)).isSome = true := by
  intro pre
  induction pre with
  | nil =>
    intro s h
    cases s with
    | nil => exact Bool.noConfusion h
    | cons c cs =>
      obtain ⟨r, hr⟩ := Option.isSome_iff_exists.mp h
      simp only [List.nil_append, searchPat, hr]
      rfl
  | cons c pre' ih =>
    intro s h
    simp only [List.cons_append, searchPat]
    cases hm : matchAt (c :: (pre' ++ s)) with
    | some r => rfl
    | none => exact ih s h

/- ### Claim C3 -/

/-- Claim C3, counterexample: the line made of exactly the three fields
claimed by the spec — a pool token, a release token and a numeric
upstream_status, in order, single-space separated — satisfies the
claimed three-field shape, yet parse_log_line rejects it, because
LOG_PATTERN additionally requires an upstream_addr field. -/
theorem parse_three_fields_counterexample :
    ThreeFieldShape ("pool=blue release=1.0 upstream_status=200".toList) ∧
    parseLogLine "pool=blue release=1.0 upstream_status=200" = none := by
  constructor
  · exact ⟨[], "blue".toList, "1.0".toList, "200".toList, [],
      by decide, by decide, by decide, by decide, by decide, by decide, by decide⟩
  · decide

/-- Claim C3 (amended): parse_log_line returns a record exactly when the
line contains, anywhere within it, a pool=<word-chars> field, a
release=<word/hyphen/dot-chars> field, an upstream_status=<digits> field
AND an upstream_addr=<digit/dot/colon-chars> field, in that relative
order separated by single spaces; any line lacking that four-field shape
yields none. -/
theorem parse_requires_four_fields (line : String) :
    (parseLogLine line).isSome = true ↔ FourFieldShape line.toList := by
  constructor
  · intro h
    obtain ⟨r, hr⟩ := Option.isSome_iff_exists.mp h
    exact searchPat_sound line.toList r hr
  · rintro ⟨pre, pool, rel, st, addr, rest, he, hpne, hpw, hrne, hrw, hsne, hsw, hane, haw⟩
    unfold parseLogLine
    rw [he]
    exact searchPat_complete pre _
      (matchAt_complete pool rel st addr rest hpne hpw hrne hrw hsne hsw hane haw)
